import Mathlib

/-!
# Authorization & Safety Control Plane — verification development

Shallow embedding of the gateway's admission-control handlers:

* `emergency_handler.go` — emergency-stop activation/deactivation and the
  `CheckEmergencyStop` admission middleware backed by a Redis key with TTL;
* `scan_authorization_handler.go` — the per-target authorization workflow
  (`SubmitAuthorization`, `ListAuthorizations`, `VerifyAuthorization`,
  `CheckTargetAuthorization`) backed by the `authorized_targets` table.

Time (`time.Time`, `NOW()`) is modelled as `Int` seconds; `time.Minute`
is the factor 60. The shared store (Postgres + Redis) is modelled as the
explicit state `GatewayState`; each HTTP handler becomes a function
`... → GatewayState → GatewayState × <response>` describing the store
mutation it performs and the response it returns on its main paths.
-/

/-- Outcome of a Redis `Get` as the Go code distinguishes it:
a present value (`ok`), the `redis.Nil` "key absent" sentinel (`nil`),
or any other (infrastructure) error (`err`). -/
inductive RedisResult (α : Type) where
  | ok (value : α)
  | nil
  | err
deriving DecidableEq, Repr

/-- Outcome of the gin middleware: `proceed` models `c.Next()`,
`blocked` models the 503 response followed by `c.Abort()`. -/
inductive MiddlewareOutcome where
  | proceed
  | blocked
deriving DecidableEq, Repr

/-- `CheckEmergencyStop` middleware body (emergency_handler.go:158-183),
as a function of the result of reading the `emergency:stop:active` key:
`redis.Nil` ⇒ not active, proceed; any other read error ⇒ proceed
(the code comments this path "Allow on error (fail open for availability)");
a present value ⇒ 503 + abort. -/
def CheckEmergencyStop (readResult : RedisResult String) : MiddlewareOutcome :=
  match readResult with
  | RedisResult.nil => MiddlewareOutcome.proceed
  | RedisResult.err => MiddlewareOutcome.proceed
  | RedisResult.ok _ => MiddlewareOutcome.blocked

/-- A row of `authorized_targets` (struct `Authorization` in
scan_authorization_handler.go:39-54, columns added by migration 003). -/
structure Authorization where
  id : String
  organizationID : String
  targetType : String
  targetValue : String
  authorizationDocumentURL : String
  authorizationHash : String
  authorizedBy : String
  validFrom : Int
  validUntil : Int
  verificationStatus : String
  verifiedByUserID : Option String
  verifiedAt : Option Int
  rejectionReason : Option String
  createdAt : Int
deriving DecidableEq, Repr

/-- A row of `scan_jobs`, restricted to the columns the emergency-stop
bulk halt touches (`UPDATE scan_jobs SET status, error_message,
completed_at WHERE status IN ('pending','running')`). -/
structure ScanJob where
  id : String
  status : String
  errorMessage : Option String
  completedAt : Option Int
deriving DecidableEq, Repr

/-- One record written by `audit.AuditLogger.LogSecurityEvent(ctx, userID,
action, target, severity, details)`; the free-form `details` map carries no
claim-relevant structure and is not modelled. -/
structure AuditEntry where
  userID : String
  action : String
  target : String
  severity : String
deriving DecidableEq, Repr

/-- The shared store visible to every handler: the Redis emergency-stop key
(`none` = absent; `some (reason, expiresAt)` = set, expiring at `expiresAt`),
the `scan_jobs` and `authorized_targets` tables, and the append-only audit
log. -/
structure GatewayState where
  stopFlag : Option (String × Int)
  scanJobs : List ScanJob
  authorizations : List Authorization
  auditLog : List AuditEntry
deriving DecidableEq, Repr

/-- Reading the emergency-stop key from a healthy store at time `now`:
Redis returns the value while `now` is before the expiry set by
`Set(..., TTL)`, and `redis.Nil` once the key has expired or was deleted. -/
def redisGetStop (st : GatewayState) (now : Int) : RedisResult String :=
  match st.stopFlag with
  | none => RedisResult.nil
  | some (reason, expiresAt) =>
      if now < expiresAt then RedisResult.ok reason else RedisResult.nil

/-- The `CheckEmergencyStop` middleware running against a healthy store at
time `now`. The middleware performs no writes, so the state is unchanged. -/
def CheckEmergencyStopHandler (now : Int) (st : GatewayState) :
    GatewayState × MiddlewareOutcome :=
  (st, CheckEmergencyStop (redisGetStop st now))

/-- `status IN ('pending', 'running')` — the WHERE clause of the bulk halt. -/
def haltable (j : ScanJob) : Bool :=
  j.status == "pending" || j.status == "running"

/-- Effect of the bulk-halt UPDATE on one `scan_jobs` row
(emergency_handler.go:62-68): a pending/running row becomes `stopped` with
the reason recorded in `error_message` and `completed_at = NOW()`; every
other row is untouched. -/
def stopJob (reason : String) (now : Int) (j : ScanJob) : ScanJob :=
  if haltable j then
    { j with status := "stopped",
             errorMessage := some ("Emergency stop activated: " ++ reason),
             completedAt := some now }
  else j

/-- Response body of `ActivateEmergencyStop` (the fields the claims are
about: `scans_stopped`, `duration_minutes`, `expires_at`). -/
structure ActivateResponse where
  scansStopped : Nat
  durationMinutes : Int
  expiresAt : Int
deriving DecidableEq, Repr

/-- `ActivateEmergencyStop` (emergency_handler.go:34-97), happy path (store
reachable): default the duration to 60 when the request omits it (zero),
set the Redis key with that TTL, bulk-halt all pending/running scan jobs
(the UPDATE's `RowsAffected` is the number of rows matching the WHERE
clause), append one `emergency_stop_activated` audit entry, and answer with
the count and `expires_at = NOW() + duration`. -/
def ActivateEmergencyStop (now : Int) (userID reason : String)
    (durationMinutes : Int) (st : GatewayState) :
    GatewayState × ActivateResponse :=
  let dur := if durationMinutes = 0 then 60 else durationMinutes
  let stopped := (st.scanJobs.filter haltable).length
  ({ st with
      stopFlag := some (reason, now + dur * 60),
      scanJobs := st.scanJobs.map (stopJob reason now),
      auditLog := st.auditLog ++
        [{ userID := userID, action := "emergency_stop_activated",
           target := "", severity := "critical" }] },
   { scansStopped := stopped, durationMinutes := dur,
     expiresAt := now + dur * 60 })

/-- `DeactivateEmergencyStop` (emergency_handler.go:100-122), happy path:
delete the Redis key, append one `emergency_stop_deactivated` audit entry,
and answer with the resume message. -/
def DeactivateEmergencyStop (userID : String) (st : GatewayState) :
    GatewayState × String :=
  ({ st with
      stopFlag := none,
      auditLog := st.auditLog ++
        [{ userID := userID, action := "emergency_stop_deactivated",
           target := "", severity := "high" }] },
   "Emergency stop deactivated - scan operations resumed")

/-- Request body of `SubmitAuthorization`
(scan_authorization_handler.go:29-37). -/
structure SubmitAuthorizationRequest where
  targetType : String
  targetValue : String
  authorizedBy : String
  authorizationDocURL : String
  validFrom : Int
  validUntil : Int
  scopeLimitations : String
deriving DecidableEq, Repr

/-- gin's `binding:"required"` on the four required string fields of the
submit request: binding fails when any of them is absent/empty. -/
def submitBindOK (req : SubmitAuthorizationRequest) : Bool :=
  req.targetType != "" && req.targetValue != "" &&
  req.authorizedBy != "" && req.authorizationDocURL != ""

/-- Response of `SubmitAuthorization` on its distinct paths: missing
organization context (400), JSON binding failure (400), the
`valid_until must be after valid_from` rejection (400), or 201 with the
new id. -/
inductive SubmitResult where
  | missingOrg
  | bindError
  | invalidRange
  | created (id : String)
deriving DecidableEq, Repr

/-- `SubmitAuthorization` (scan_authorization_handler.go:57-104), happy
path for the INSERT: reject a missing org context, then a binding failure,
then `req.ValidUntil.Before(req.ValidFrom)` (strict <), else INSERT one row
with `verification_status = 'pending'` and null verifier fields.
`hashHex` abstracts `hex.EncodeToString(sha256.Sum256(url))`; no claim
depends on the hash value. `newID` stands for the generated `uuid.New()`. -/
def SubmitAuthorization (hashHex : String → String) (now : Int)
    (newID orgID : String) (req : SubmitAuthorizationRequest)
    (st : GatewayState) : GatewayState × SubmitResult :=
  if orgID == "" then (st, SubmitResult.missingOrg)
  else if !(submitBindOK req) then (st, SubmitResult.bindError)
  else if req.validUntil < req.validFrom then (st, SubmitResult.invalidRange)
  else
    ({ st with authorizations := st.authorizations ++
        [{ id := newID,
           organizationID := orgID,
           targetType := req.targetType,
           targetValue := req.targetValue,
           authorizationDocumentURL := req.authorizationDocURL,
           authorizationHash := hashHex req.authorizationDocURL,
           authorizedBy := req.authorizedBy,
           validFrom := req.validFrom,
           validUntil := req.validUntil,
           verificationStatus := "pending",
           verifiedByUserID := none,
           verifiedAt := none,
           rejectionReason := none,
           createdAt := now }] },
     SubmitResult.created newID)

/-- `ListAuthorizations` (scan_authorization_handler.go:107-138) as the
SELECT it issues: rows of the caller's organization, optionally filtered by
`verification_status` (empty query string = no filter), ordered by
`created_at DESC`. -/
def ListAuthorizations (db : List Authorization)
    (orgID statusFilter : String) : List Authorization :=
  (db.filter (fun a => a.organizationID == orgID &&
      (statusFilter == "" || a.verificationStatus == statusFilter))).mergeSort
    (fun a b => b.createdAt ≤ a.createdAt)

/-- Response of `VerifyAuthorization` on its distinct paths: bad/missing
action (400; an absent action fails gin binding, observably the same
no-mutation 400), unknown id (404), or 200 with id and the new status. -/
inductive VerifyResult where
  | badAction
  | notFound
  | ok (id : String) (newStatus : String)
deriving DecidableEq, Repr

/-- Effect of the UPDATE in `VerifyAuthorization`
(scan_authorization_handler.go:174-204) on the matched row: both branches
set `verification_status`, `verified_by_user_id` and `verified_at = NOW()`;
the reject branch additionally sets `rejection_reason` to the request's
reason. Neither branch reads or clears any previously stored value. -/
def decideRecord (action userID reason : String) (now : Int)
    (a : Authorization) : Authorization :=
  if action == "reject" then
    { a with verificationStatus := "rejected",
             verifiedByUserID := some userID,
             verifiedAt := some now,
             rejectionReason := some reason }
  else
    { a with verificationStatus := "approved",
             verifiedByUserID := some userID,
             verifiedAt := some now }

/-- `VerifyAuthorization` (scan_authorization_handler.go:141-211), happy
path for the store: validate the action, `SELECT * WHERE id` (404 when no
row), then UPDATE the row with that id. The handler performs no check of
the current `verification_status`. -/
def VerifyAuthorization (now : Int) (authID userID action reason : String)
    (st : GatewayState) : GatewayState × VerifyResult :=
  if action != "approve" && action != "reject" then
    (st, VerifyResult.badAction)
  else
    match st.authorizations.find? (fun a => a.id == authID) with
    | none => (st, VerifyResult.notFound)
    | some _ =>
        let newStatus := if action == "reject" then "rejected" else "approved"
        ({ st with authorizations :=
             st.authorizations.map (fun a =>
               if a.id == authID then decideRecord action userID reason now a
               else a) },
         VerifyResult.ok authID newStatus)

/-- The WHERE clause of the pre-flight check's SELECT
(scan_authorization_handler.go:234-243): same organization, same target,
`verification_status = 'approved'`, `valid_from <= NOW()` and
`valid_until >= NOW()`. -/
def authzMatches (orgID targetType targetValue : String) (now : Int)
    (a : Authorization) : Bool :=
  a.organizationID == orgID && a.targetType == targetType &&
  a.targetValue == targetValue && a.verificationStatus == "approved" &&
  decide (a.validFrom ≤ now) && decide (now ≤ a.validUntil)

/-- The pre-flight SELECT itself: `SELECT id ... LIMIT 1`, i.e. the id of
the first matching row, if any. -/
def targetAuthQuery (db : List Authorization)
    (orgID targetType targetValue : String) (now : Int) : Option String :=
  (db.find? (authzMatches orgID targetType targetValue now)).map
    (fun a => a.id)

/-- Response of `CheckTargetAuthorization` on its distinct paths: missing
org context (400), binding failure (400), or 200 with
`{authorized, authorization_id}`. -/
inductive CheckResult where
  | missingOrg
  | bindError
  | result (authorized : Bool) (authorizationID : Option String)
deriving DecidableEq, Repr

/-- `CheckTargetAuthorization` (scan_authorization_handler.go:215-264),
happy path for the store: reject a missing org context, then a binding
failure, else run the pre-flight SELECT; `sql.ErrNoRows` answers
`authorized:false` with a null id, a row answers `authorized:true` with its
id. The handler issues no UPDATE: the state is returned unchanged. -/
def CheckTargetAuthorization (now : Int)
    (orgID targetType targetValue : String) (st : GatewayState) :
    GatewayState × CheckResult :=
  if orgID == "" then (st, CheckResult.missingOrg)
  else if targetType == "" || targetValue == "" then (st, CheckResult.bindError)
  else
    match targetAuthQuery st.authorizations orgID targetType targetValue now with
    | none => (st, CheckResult.result false none)
    | some id => (st, CheckResult.result true (some id))

/-- One admission check as the spec counts them: the emergency-stop
middleware read, or one pre-flight target check. -/
inductive AdmissionCheck where
  | emergencyCheck (now : Int)
  | targetCheck (now : Int) (orgID targetType targetValue : String)

/-- The store after running one admission check (both handlers only read;
their post-state is the `.1` component of the handler). -/
def runAdmissionCheck (c : AdmissionCheck) (st : GatewayState) :
    GatewayState :=
  match c with
  | AdmissionCheck.emergencyCheck now => (CheckEmergencyStopHandler now st).1
  | AdmissionCheck.targetCheck now orgID tt tv =>
      (CheckTargetAuthorization now orgID tt tv st).1

/-- The store after a sequence of admission checks. -/
def runAdmissionChecks (cs : List AdmissionCheck) (st : GatewayState) :
    GatewayState :=
  cs.foldl (fun s c => runAdmissionCheck c s) st

/-! ## Concrete sample data (used by counterexamples and witnesses) -/

/-- The empty store. -/
def emptyState : GatewayState :=
  { stopFlag := none, scanJobs := [], authorizations := [], auditLog := [] }

/-- A submit request with a degenerate window: `validFrom = validUntil = 0`. -/
def boundaryRequest : SubmitAuthorizationRequest :=
  { targetType := "domain", targetValue := "api.example.com",
    authorizedBy := "Jane Signer",
    authorizationDocURL := "https://example.com/pts.pdf",
    validFrom := 0, validUntil := 0, scopeLimitations := "" }

/-- A submit request with a proper window `[0, 100]`. -/
def validRequest : SubmitAuthorizationRequest :=
  { boundaryRequest with validUntil := 100 }

/-- A freshly submitted (pending) authorization record. -/
def pendingRecord : Authorization :=
  { id := "auth-1", organizationID := "org-1", targetType := "domain",
    targetValue := "api.example.com",
    authorizationDocumentURL := "https://example.com/pts.pdf",
    authorizationHash := "h", authorizedBy := "Jane Signer",
    validFrom := 0, validUntil := 100, verificationStatus := "pending",
    verifiedByUserID := none, verifiedAt := none, rejectionReason := none,
    createdAt := 0 }

/-- An approved record for tenant `org-1`, window `[0, 100]`. -/
def approvedRecord : Authorization :=
  { pendingRecord with
      id := "auth-2"
      verificationStatus := "approved"
      verifiedByUserID := some "verifier-1"
      verifiedAt := some 1 }

/-- An approved record belonging to a different tenant, `org-2`. -/
def otherOrgRecord : Authorization :=
  { approvedRecord with
      id := "auth-3"
      organizationID := "org-2" }

/-- A store holding just `pendingRecord`. -/
def oneRecordState : GatewayState :=
  { emptyState with authorizations := [pendingRecord] }

/-- A store holding just `approvedRecord`. -/
def approvedState : GatewayState :=
  { emptyState with authorizations := [approvedRecord] }

/-! ## Shared helper lemmas -/

/-- The UPDATE of `VerifyAuthorization` never changes the row id. -/
theorem decideRecord_id (action userID reason : String) (now : Int)
    (a : Authorization) : (decideRecord action userID reason now a).id = a.id := by
  unfold decideRecord
  split <;> rfl

/-- `CheckTargetAuthorization` performs no store mutation on any path. -/
theorem CheckTargetAuthorization_state (now : Int)
    (orgID targetType targetValue : String) (st : GatewayState) :
    (CheckTargetAuthorization now orgID targetType targetValue st).1 = st := by
  unfold CheckTargetAuthorization
  split
  · rfl
  · split
    · rfl
    · split <;> rfl

/-- Mapping an id-preserving function across the table preserves whether a
row with a given id is found. -/
theorem find?_id_isSome_map (l : List Authorization)
    (f : Authorization → Authorization) (hid : ∀ a, (f a).id = a.id)
    (authID : String) :
    ((l.map f).find? (fun a => a.id == authID)).isSome =
      (l.find? (fun a => a.id == authID)).isSome := by
  induction l with
  | nil => rfl
  | cons a t ih =>
      have hpa : ((f a).id == authID) = (a.id == authID) := by rw [hid a]
      by_cases h : (a.id == authID) = true
      · have h1 : ((f a).id == authID) = true := by rw [hpa]; exact h
        rw [List.map_cons,
            @List.find?_cons_of_pos _ (fun a => a.id == authID) (f a)
              (List.map f t) h1,
            @List.find?_cons_of_pos _ (fun a => a.id == authID) a t h]
        rfl
      · have h1 : ¬ ((f a).id == authID) = true := by rw [hpa]; exact h
        rw [List.map_cons,
            @List.find?_cons_of_neg _ (fun a => a.id == authID) (f a)
              (List.map f t) h1,
            @List.find?_cons_of_neg _ (fun a => a.id == authID) a t h]
        exact ih

/-- A member of the updated table carrying the decided id comes from a
matching row of the old table, transformed by `decideRecord`. -/
theorem mem_decide_update (l : List Authorization)
    (authID action userID reason : String) (now : Int) (a : Authorization)
    (ha : a ∈ l.map (fun x =>
      if x.id == authID then decideRecord action userID reason now x else x))
    (hid : a.id = authID) :
    ∃ x ∈ l, x.id = authID ∧ a = decideRecord action userID reason now x := by
  obtain ⟨x, hx, hfx⟩ := List.mem_map.mp ha
  by_cases hxid : x.id = authID
  · refine ⟨x, hx, hxid, ?_⟩
    rw [← hfx, if_pos (by simpa using hxid)]
  · exfalso
    rw [if_neg (by simpa using hxid)] at hfx
    exact hxid (hfx ▸ hid)

/-- Behaviour of `VerifyAuthorization` on a valid action when the row
exists: the UPDATE runs and the handler answers 200 with the new status. -/
theorem VerifyAuthorization_found (now : Int)
    (authID userID action reason : String) (st : GatewayState)
    (hact : action = "approve" ∨ action = "reject")
    (h : (st.authorizations.find? (fun a => a.id == authID)).isSome) :
    VerifyAuthorization now authID userID action reason st =
      ({ st with authorizations := st.authorizations.map (fun a =>
           if a.id == authID then decideRecord action userID reason now a
           else a) },
       VerifyResult.ok authID
         (if action == "reject" then "rejected" else "approved")) := by
  obtain ⟨rec0, hrec⟩ := Option.isSome_iff_exists.mp h
  have hok : (action != "approve" && action != "reject") = false := by
    rcases hact with h1 | h1 <;> simp [h1]
  unfold VerifyAuthorization
  rw [hok, hrec]
  simp

/-! ## C1 — emergency-stop check under store failure -/

/-- C1 counterexample: the claim says that when the read of the
emergency-stop flag fails with an error other than "key absent", the
`CheckEmergencyStop` middleware denies the request. In the code the
request proceeds: the error branch runs `c.Next()` ("fail open for
availability"), it does not abort. -/
theorem C1_counterexample :
    CheckEmergencyStop (RedisResult.err : RedisResult String) =
        MiddlewareOutcome.proceed ∧
    CheckEmergencyStop (RedisResult.err : RedisResult String) ≠
        MiddlewareOutcome.blocked := by
  constructor
  · rfl
  · decide

/-- C1 (amended): `CheckEmergencyStop` blocks a request iff the read of the
emergency-stop flag returned a present value; on the "key absent" sentinel
and on every other read error (store unreachable) it lets the request
proceed — the infrastructure-fault path is fail-open, not fail-closed. -/
theorem C1_fail_open (r : RedisResult String) :
    CheckEmergencyStop r = MiddlewareOutcome.blocked ↔
      ∃ reason, r = RedisResult.ok reason := by
  cases r with
  | ok v => simp [CheckEmergencyStop]
  | nil => simp [CheckEmergencyStop]
  | err => simp [CheckEmergencyStop]

/-! ## C4 — Submit time-range validation -/

/-- C4 counterexample: the claim says Submit fails on the boundary case
`validUntil = validFrom`. The code only rejects
`req.ValidUntil.Before(req.ValidFrom)` (strict), so a request with
`validFrom = validUntil = 0` is accepted and a record is persisted. -/
theorem C4_counterexample :
    (SubmitAuthorization (fun s => s) 0 "id-1" "org-1" boundaryRequest
        emptyState).2 = SubmitResult.created "id-1" ∧
    (SubmitAuthorization (fun s => s) 0 "id-1" "org-1" boundaryRequest
        emptyState).1.authorizations.length = 1 := by
  constructor <;> rfl

/-- C4 (amended): with an organization context and the required fields
present, `SubmitAuthorization` fails with the range validation error and
persists nothing iff `validUntil < validFrom` (strictly); for every input
with `validFrom ≤ validUntil` — including the boundary
`validUntil = validFrom` — exactly one new record with status `pending` and
null verifier fields is appended. -/
theorem C4_submit_range (hashHex : String → String) (now : Int)
    (newID orgID : String) (req : SubmitAuthorizationRequest)
    (st : GatewayState) (horg : orgID ≠ "")
    (hbind : submitBindOK req = true) :
    (req.validUntil < req.validFrom →
      (SubmitAuthorization hashHex now newID orgID req st).2 =
          SubmitResult.invalidRange ∧
      (SubmitAuthorization hashHex now newID orgID req st).1 = st) ∧
    (req.validFrom ≤ req.validUntil →
      (SubmitAuthorization hashHex now newID orgID req st).2 =
          SubmitResult.created newID ∧
      ∃ newRecord,
        (SubmitAuthorization hashHex now newID orgID req st).1.authorizations =
          st.authorizations ++ [newRecord] ∧
        newRecord.id = newID ∧
        newRecord.organizationID = orgID ∧
        newRecord.verificationStatus = "pending" ∧
        newRecord.verifiedByUserID = none ∧
        newRecord.verifiedAt = none ∧
        newRecord.rejectionReason = none ∧
        newRecord.validFrom = req.validFrom ∧
        newRecord.validUntil = req.validUntil) := by
  have h1 : (orgID == "") = false := by simpa using horg
  constructor
  · intro hlt
    unfold SubmitAuthorization
    rw [h1, hbind]
    simp [hlt]
  · intro hle
    have h2 : ¬ (req.validUntil < req.validFrom) := not_lt.mpr hle
    unfold SubmitAuthorization
    rw [if_neg (by simp [h1]), if_neg (by simp [hbind]), if_neg h2]
    exact ⟨rfl, _, rfl, rfl, rfl, rfl, rfl, rfl, rfl, rfl, rfl⟩

/-- C4 witness: the amended theorem applied at a concrete in-range input. -/
theorem C4_submit_range_witness :
    (SubmitAuthorization (fun s => s) 0 "id-1" "org-1" validRequest
        emptyState).2 = SubmitResult.created "id-1" :=
  ((C4_submit_range (fun s => s) 0 "id-1" "org-1" validRequest emptyState
      (by decide) (by decide)).2 (by decide)).1

/-! ## C7 — reject without a reason -/

/-- C7 counterexample: the claim says a Decide with action `reject` and an
empty reason fails with a missing-reason validation error and performs no
mutation. The code performs no such check: on a concrete pending record the
call succeeds (200, status `rejected`) and mutates the stored record. -/
theorem C7_counterexample :
    (VerifyAuthorization 5 "auth-1" "verifier-1" "reject" "" oneRecordState).2
        = VerifyResult.ok "auth-1" "rejected" ∧
    (VerifyAuthorization 5 "auth-1" "verifier-1" "reject" ""
        oneRecordState).1.authorizations ≠ oneRecordState.authorizations := by
  constructor
  · rfl
  · decide

/-- C7 (amended): `VerifyAuthorization` accepts a reject with an empty
reason whenever the record exists: it answers 200 with status `rejected`
and stores the empty string as the rejection reason (together with the
verifier id and timestamp); no missing-reason validation exists. -/
theorem C7_reject_empty_reason (now : Int) (authID userID : String)
    (st : GatewayState)
    (h : (st.authorizations.find? (fun a => a.id == authID)).isSome = true) :
    (VerifyAuthorization now authID userID "reject" "" st).2 =
        VerifyResult.ok authID "rejected" ∧
    ∀ a ∈ (VerifyAuthorization now authID userID "reject" "" st).1.authorizations,
      a.id = authID →
        a.verificationStatus = "rejected" ∧ a.rejectionReason = some "" ∧
        a.verifiedByUserID = some userID ∧ a.verifiedAt = some now := by
  have hv := VerifyAuthorization_found now authID userID "reject" "" st
    (Or.inr rfl) h
  rw [hv]
  constructor
  · rfl
  · intro a ha hid
    obtain ⟨x, hx, hxid, hax⟩ :=
      mem_decide_update st.authorizations authID "reject" userID "" now a ha hid
    subst hax
    simp [decideRecord]

/-- C7 witness: the amended theorem applied to a concrete pending record. -/
theorem C7_reject_empty_reason_witness :
    (VerifyAuthorization 7 "auth-1" "verifier-1" "reject" "" oneRecordState).2
      = VerifyResult.ok "auth-1" "rejected" :=
  (C7_reject_empty_reason 7 "auth-1" "verifier-1" oneRecordState (by decide)).1

/-! ## C3 — Decide is not terminal -/

/-- The store after a first decision: `pendingRecord` approved by
`verifier-1` at time 10. -/
def afterApprove : GatewayState :=
  (VerifyAuthorization 10 "auth-1" "verifier-1" "approve" "" oneRecordState).1

/-- C3 counterexample: the claim says a second Decide on the same id fails
with a conflict error and leaves the first decision intact. In the code a
second Decide succeeds (200) and overwrites the stored status, verifier id
and verified-at of the first decision. -/
theorem C3_counterexample :
    (VerifyAuthorization 20 "auth-1" "verifier-2" "reject" "policy violation"
        afterApprove).2 = VerifyResult.ok "auth-1" "rejected" ∧
    (VerifyAuthorization 20 "auth-1" "verifier-2" "reject" "policy violation"
        afterApprove).1.authorizations.length = 1 ∧
    ∀ a ∈ (VerifyAuthorization 20 "auth-1" "verifier-2" "reject"
        "policy violation" afterApprove).1.authorizations,
      a.verificationStatus = "rejected" ∧
      a.verifiedByUserID = some "verifier-2" ∧ a.verifiedAt = some 20 := by
  refine ⟨rfl, rfl, ?_⟩
  decide

/-- C3 (amended): decisions are not terminal. For every record present in
the store, a second `VerifyAuthorization` on the same id (any verifier, any
valid action) also succeeds — no conflict error — and the stored status,
verifier id and verified-at afterwards are those of the second decision
(last-writer-wins), not the first. -/
theorem C3_second_decide_overwrites (now1 now2 : Int)
    (authID v1 v2 act1 act2 r1 r2 : String) (st : GatewayState)
    (h : (st.authorizations.find? (fun a => a.id == authID)).isSome = true)
    (ha1 : act1 = "approve" ∨ act1 = "reject")
    (ha2 : act2 = "approve" ∨ act2 = "reject") :
    (VerifyAuthorization now2 authID v2 act2 r2
        (VerifyAuthorization now1 authID v1 act1 r1 st).1).2 =
      VerifyResult.ok authID
        (if act2 == "reject" then "rejected" else "approved") ∧
    ∀ a ∈ (VerifyAuthorization now2 authID v2 act2 r2
        (VerifyAuthorization now1 authID v1 act1 r1 st).1).1.authorizations,
      a.id = authID →
        a.verificationStatus =
            (if act2 == "reject" then "rejected" else "approved") ∧
        a.verifiedByUserID = some v2 ∧ a.verifiedAt = some now2 := by
  have hv1 := VerifyAuthorization_found now1 authID v1 act1 r1 st ha1 h
  have hf : ∀ a : Authorization,
      ((if a.id == authID then decideRecord act1 v1 r1 now1 a else a)).id
        = a.id := by
    intro a
    split
    · exact decideRecord_id act1 v1 r1 now1 a
    · rfl
  have hfind : ((VerifyAuthorization now1 authID v1 act1 r1
      st).1.authorizations.find? (fun a => a.id == authID)).isSome = true := by
    rw [hv1]
    exact (find?_id_isSome_map st.authorizations _ hf authID).trans h
  have hv2 := VerifyAuthorization_found now2 authID v2 act2 r2
    (VerifyAuthorization now1 authID v1 act1 r1 st).1 ha2 hfind
  rw [hv2]
  constructor
  · rfl
  · intro a ha hid
    obtain ⟨x, hx, hxid, hax⟩ := mem_decide_update
      (VerifyAuthorization now1 authID v1 act1 r1 st).1.authorizations
      authID act2 v2 r2 now2 a ha hid
    subst hax
    rcases ha2 with h2 | h2 <;> subst h2 <;> simp [decideRecord]

/-- C3 witness: the amended theorem applied to the concrete double-decide
run approve-then-reject on `pendingRecord`. -/
theorem C3_second_decide_overwrites_witness :
    (VerifyAuthorization 20 "auth-1" "verifier-2" "reject" "late objection"
        (VerifyAuthorization 10 "auth-1" "verifier-1" "approve" ""
          oneRecordState).1).2 =
      VerifyResult.ok "auth-1"
        (if ("reject" : String) == "reject" then "rejected" else "approved") :=
  (C3_second_decide_overwrites 10 20 "auth-1" "verifier-1" "verifier-2"
    "approve" "reject" "" "late objection" oneRecordState (by decide)
    (Or.inl rfl) (Or.inr rfl)).1

/-! ## C5 — the pre-flight target check -/

/-- The WHERE clause of the pre-flight SELECT, spelled out as the
propositions of the spec: same tenant and target, approved, and the
validity window contains `now`. -/
theorem authzMatches_iff (orgID targetType targetValue : String) (now : Int)
    (a : Authorization) :
    authzMatches orgID targetType targetValue now a = true ↔
      (a.organizationID = orgID ∧ a.targetType = targetType ∧
       a.targetValue = targetValue ∧ a.verificationStatus = "approved" ∧
       a.validFrom ≤ now ∧ now ≤ a.validUntil) := by
  unfold authzMatches
  simp [and_assoc]

/-- C5: with an organization context and a bound request, the pre-flight
check mutates nothing, answers `authorized:true` with the id of a record of
that tenant and target that is approved with `validFrom ≤ now ≤ validUntil`
iff such a record exists, and answers `authorized:false` with a null id iff
no such record exists (in particular once `now` passes every matching
record's `validUntil`). -/
theorem C5_preflight (now : Int) (orgID targetType targetValue : String)
    (st : GatewayState) (horg : orgID ≠ "") (htt : targetType ≠ "")
    (htv : targetValue ≠ "") :
    (CheckTargetAuthorization now orgID targetType targetValue st).1 = st ∧
    ((∃ recordID,
        (CheckTargetAuthorization now orgID targetType targetValue st).2 =
          CheckResult.result true (some recordID) ∧
        ∃ a ∈ st.authorizations, a.id = recordID ∧ a.organizationID = orgID ∧
          a.targetType = targetType ∧ a.targetValue = targetValue ∧
          a.verificationStatus = "approved" ∧ a.validFrom ≤ now ∧
          now ≤ a.validUntil) ↔
      ∃ a ∈ st.authorizations, a.organizationID = orgID ∧
        a.targetType = targetType ∧ a.targetValue = targetValue ∧
        a.verificationStatus = "approved" ∧ a.validFrom ≤ now ∧
        now ≤ a.validUntil) ∧
    ((CheckTargetAuthorization now orgID targetType targetValue st).2 =
        CheckResult.result false none ↔
      ¬ ∃ a ∈ st.authorizations, a.organizationID = orgID ∧
        a.targetType = targetType ∧ a.targetValue = targetValue ∧
        a.verificationStatus = "approved" ∧ a.validFrom ≤ now ∧
        now ≤ a.validUntil) := by
  have e : (CheckTargetAuthorization now orgID targetType targetValue st).2 =
      match targetAuthQuery st.authorizations orgID targetType targetValue now with
      | none => CheckResult.result false none
      | some recordID => CheckResult.result true (some recordID) := by
    unfold CheckTargetAuthorization
    rw [if_neg (by simp [horg]), if_neg (by simp [htt, htv])]
    cases targetAuthQuery st.authorizations orgID targetType targetValue now <;>
      rfl
  refine ⟨CheckTargetAuthorization_state now orgID targetType targetValue st, ?_⟩
  cases hq : targetAuthQuery st.authorizations orgID targetType targetValue now with
  | none =>
      have hfind : st.authorizations.find?
          (authzMatches orgID targetType targetValue now) = none := by
        unfold targetAuthQuery at hq
        exact Option.map_eq_none'.mp hq
      have hnone := List.find?_eq_none.mp hfind
      constructor
      · constructor
        · rintro ⟨rid, hres, -⟩
          rw [e, hq] at hres
          simp at hres
        · rintro ⟨a, hmem, hprops⟩
          exact absurd ((authzMatches_iff orgID targetType targetValue now a).mpr
            hprops) (hnone a hmem)
      · constructor
        · rintro - ⟨a, hmem, hprops⟩
          exact absurd ((authzMatches_iff orgID targetType targetValue now a).mpr
            hprops) (hnone a hmem)
        · intro _
          rw [e, hq]
  | some recordID =>
      have hq0 : (st.authorizations.find?
          (authzMatches orgID targetType targetValue now)).map (fun a => a.id)
            = some recordID := by
        unfold targetAuthQuery at hq
        exact hq
      obtain ⟨a0, hfind, hid⟩ := Option.map_eq_some'.mp hq0
      have hmem0 := List.mem_of_find?_eq_some hfind
      have hprops0 := (authzMatches_iff orgID targetType targetValue now a0).mp
        (List.find?_some hfind)
      constructor
      · constructor
        · intro _
          exact ⟨a0, hmem0, hprops0⟩
        · intro _
          exact ⟨recordID, by rw [e, hq], a0, hmem0, hid, hprops0⟩
      · constructor
        · intro hres
          rw [e, hq] at hres
          simp at hres
        · intro hcon
          exact absurd ⟨a0, hmem0, hprops0⟩ hcon

/-- C5 witness: the theorem applied at a concrete approved record whose
window contains the query time. -/
theorem C5_preflight_witness :
    (CheckTargetAuthorization 50 "org-1" "domain" "api.example.com"
        approvedState).1 = approvedState :=
  (C5_preflight 50 "org-1" "domain" "api.example.com" approvedState
    (by decide) (by decide) (by decide)).1

/-! ## C6 — emergency stop gates admission; Deactivate / TTL expiry lift it -/

/-- A store with the emergency-stop key set (reason "drill", expiry 60). -/
def stoppedState : GatewayState :=
  { emptyState with stopFlag := some ("drill", 60) }

/-- C6: while the emergency-stop key is set and unexpired, the admission
middleware blocks every request — whatever else the store contains, i.e.
regardless of sessions or target authorizations; once `now` reaches the
expiry (natural TTL lapse), or after `DeactivateEmergencyStop` (which
deletes the key whatever its remaining TTL), the middleware lets requests
proceed to the remaining checks. -/
theorem C6_emergency_gate (st : GatewayState) (now : Int) (reason : String)
    (expiresAt : Int) (userID : String)
    (h : st.stopFlag = some (reason, expiresAt)) :
    (now < expiresAt →
      (CheckEmergencyStopHandler now st).2 = MiddlewareOutcome.blocked) ∧
    (expiresAt ≤ now →
      (CheckEmergencyStopHandler now st).2 = MiddlewareOutcome.proceed) ∧
    ∀ later : Int,
      (CheckEmergencyStopHandler later
        (DeactivateEmergencyStop userID st).1).2 = MiddlewareOutcome.proceed := by
  refine ⟨?_, ?_, ?_⟩
  · intro hlt
    have hr : redisGetStop st now = RedisResult.ok reason := by
      unfold redisGetStop
      rw [h]
      simp [hlt]
    simp [CheckEmergencyStopHandler, hr, CheckEmergencyStop]
  · intro hge
    have hr : redisGetStop st now = RedisResult.nil := by
      unfold redisGetStop
      rw [h]
      simp [not_lt.mpr hge]
    simp [CheckEmergencyStopHandler, hr, CheckEmergencyStop]
  · intro later
    rfl

/-- C6 witness: with the key set at expiry 60, a request at time 10 is
blocked. -/
theorem C6_emergency_gate_witness :
    (CheckEmergencyStopHandler 10 stoppedState).2 = MiddlewareOutcome.blocked :=
  (C6_emergency_gate stoppedState 10 "drill" 60 "op-1" rfl).1 (by decide)

/-! ## C8 — Activate: default duration, TTL, bulk halt, count -/

/-- C8: `ActivateEmergencyStop` defaults an omitted (zero) duration to 60
minutes; the key is set to expire exactly at the returned
`expires_at = now + duration`; the response counts exactly the
pending/running jobs; each pending/running job reappears as `stopped` with
the reason recorded and `completed_at` set; and afterwards no job is
pending or running. -/
theorem C8_activate (now : Int) (userID reason : String) (d : Int)
    (st : GatewayState) :
    (ActivateEmergencyStop now userID reason d st).2.durationMinutes =
        (if d = 0 then 60 else d) ∧
    (ActivateEmergencyStop now userID reason d st).2.expiresAt =
        now + (if d = 0 then 60 else d) * 60 ∧
    (ActivateEmergencyStop now userID reason d st).1.stopFlag =
        some (reason, (ActivateEmergencyStop now userID reason d st).2.expiresAt) ∧
    (ActivateEmergencyStop now userID reason d st).2.scansStopped =
        (st.scanJobs.filter haltable).length ∧
    (∀ j ∈ st.scanJobs, haltable j = true →
       ({ j with status := "stopped",
                 errorMessage := some ("Emergency stop activated: " ++ reason),
                 completedAt := some now } : ScanJob) ∈
         (ActivateEmergencyStop now userID reason d st).1.scanJobs) ∧
    (∀ j ∈ (ActivateEmergencyStop now userID reason d st).1.scanJobs,
       haltable j = false) := by
  refine ⟨rfl, rfl, rfl, rfl, ?_, ?_⟩
  · intro j hj hhalt
    have hstop : stopJob reason now j =
        { j with status := "stopped",
                 errorMessage := some ("Emergency stop activated: " ++ reason),
                 completedAt := some now } := by
      unfold stopJob
      rw [if_pos hhalt]
    rw [← hstop]
    exact List.mem_map.mpr ⟨j, hj, rfl⟩
  · intro j hj
    obtain ⟨x, hx, hfx⟩ := List.mem_map.mp hj
    rw [← hfx]
    unfold stopJob
    split
    · simp [haltable]
    · rename_i hcond
      simpa using hcond

/-! ## C2 — what the admission checks write to the audit log -/

/-- Neither admission handler mutates the store at all (both only read). -/
theorem runAdmissionCheck_state (c : AdmissionCheck) (st : GatewayState) :
    runAdmissionCheck c st = st := by
  cases c with
  | emergencyCheck now => rfl
  | targetCheck now orgID targetType targetValue =>
      exact CheckTargetAuthorization_state now orgID targetType targetValue st

/-- A whole sequence of admission checks leaves the store untouched. -/
theorem runAdmissionChecks_state (cs : List AdmissionCheck)
    (st : GatewayState) : runAdmissionChecks cs st = st := by
  induction cs generalizing st with
  | nil => rfl
  | cons c t ih =>
      show (c :: t).foldl (fun s c => runAdmissionCheck c s) st = st
      rw [List.foldl_cons, runAdmissionCheck_state]
      exact ih st

/-- C2 counterexample: the claim says every admission check writes exactly
one audit entry, so after K = 1 checks the log must have grown by one. On a
concrete store the log has 0 new entries after one emergency-stop admission
check — the admission handlers write no audit entries. -/
theorem C2_counterexample :
    (runAdmissionChecks [AdmissionCheck.emergencyCheck 0]
        oneRecordState).auditLog.length = 0 ∧
    (runAdmissionChecks [AdmissionCheck.emergencyCheck 0]
        oneRecordState).auditLog.length ≠
      oneRecordState.auditLog.length + 1 := by
  constructor
  · rfl
  · decide

/-- C2 (amended): the admission checks (`CheckEmergencyStop` middleware and
`CheckTargetAuthorization`) write no audit entries at all — after any K
admission checks the audit log is exactly what it was, gaining 0 entries,
not K. The only audit writes in these handlers are in
`ActivateEmergencyStop` and `DeactivateEmergencyStop`, which append exactly
one entry each. -/
theorem C2_audit_writes (cs : List AdmissionCheck) (st : GatewayState)
    (now : Int) (userID reason : String) (d : Int) :
    (runAdmissionChecks cs st).auditLog = st.auditLog ∧
    (ActivateEmergencyStop now userID reason d st).1.auditLog.length =
        st.auditLog.length + 1 ∧
    (DeactivateEmergencyStop userID st).1.auditLog.length =
        st.auditLog.length + 1 := by
  refine ⟨by rw [runAdmissionChecks_state], ?_, ?_⟩ <;>
    simp [ActivateEmergencyStop, DeactivateEmergencyStop]

/-! ## C9 — lifecycle of the verifier fields -/

/-- The store after `pendingRecord` is rejected by `verifier-1` at time 10
with reason "no signed document". -/
def afterReject : GatewayState :=
  (VerifyAuthorization 10 "auth-1" "verifier-1" "reject" "no signed document"
    oneRecordState).1

/-- C9 counterexample: the claim says verifier id / verified-at are set
exactly once and immutable, and the rejection reason is non-null iff the
status is rejected. Re-deciding (reject, then approve — the code permits
it, cf. C3) produces a record whose verifier fields were overwritten and
which is `approved` while still carrying the old rejection reason. -/
theorem C9_counterexample :
    (∀ a ∈ afterReject.authorizations,
       a.verifiedByUserID = some "verifier-1" ∧
       a.verificationStatus = "rejected") ∧
    (VerifyAuthorization 20 "auth-1" "verifier-2" "approve" ""
        afterReject).1.authorizations.length = 1 ∧
    ∀ a ∈ (VerifyAuthorization 20 "auth-1" "verifier-2" "approve" ""
        afterReject).1.authorizations,
      a.verificationStatus = "approved" ∧
      a.rejectionReason = some "no signed document" ∧
      a.verifiedByUserID = some "verifier-2" ∧ a.verifiedAt = some 20 := by
  refine ⟨by decide, rfl, by decide⟩

/-- The part of the record-lifecycle invariant the code does maintain:
pending records have all three nullable fields null; verifier id and
verified-at are always null together or set together; a rejected record
has a (possibly empty) rejection reason. -/
def recordWellFormed (a : Authorization) : Prop :=
  (a.verificationStatus = "pending" →
     a.verifiedByUserID = none ∧ a.verifiedAt = none ∧
     a.rejectionReason = none) ∧
  (a.verifiedByUserID.isSome ↔ a.verifiedAt.isSome) ∧
  (a.verificationStatus = "rejected" → a.rejectionReason.isSome = true)

/-- Both branches of the Decide UPDATE yield a well-formed record. -/
theorem decideRecord_wellFormed (action userID reason : String) (now : Int)
    (a : Authorization) :
    recordWellFormed (decideRecord action userID reason now a) := by
  unfold decideRecord recordWellFormed
  split <;> simp

/-- The table after `SubmitAuthorization`: unchanged, or the old table plus
one pending record with null verifier fields. -/
theorem SubmitAuthorization_authorizations (hashHex : String → String)
    (now : Int) (newID orgID : String) (req : SubmitAuthorizationRequest)
    (st : GatewayState) :
    (SubmitAuthorization hashHex now newID orgID req st).1.authorizations
        = st.authorizations ∨
    ∃ newRecord,
      newRecord.verificationStatus = "pending" ∧
      newRecord.verifiedByUserID = none ∧ newRecord.verifiedAt = none ∧
      newRecord.rejectionReason = none ∧
      (SubmitAuthorization hashHex now newID orgID req st).1.authorizations
          = st.authorizations ++ [newRecord] := by
  unfold SubmitAuthorization
  split
  · exact Or.inl rfl
  · split
    · exact Or.inl rfl
    · split
      · exact Or.inl rfl
      · exact Or.inr ⟨_, rfl, rfl, rfl, rfl, rfl⟩

/-- The table after `VerifyAuthorization`: unchanged, or rewritten by the
Decide UPDATE on the rows carrying the decided id. -/
theorem VerifyAuthorization_authorizations (now : Int)
    (authID userID action reason : String) (st : GatewayState) :
    (VerifyAuthorization now authID userID action reason st).1.authorizations
        = st.authorizations ∨
    (VerifyAuthorization now authID userID action reason st).1.authorizations
        = st.authorizations.map (fun a =>
            if a.id == authID then decideRecord action userID reason now a
            else a) := by
  unfold VerifyAuthorization
  split
  · exact Or.inl rfl
  · cases hfind : st.authorizations.find? (fun a => a.id == authID) with
    | none => exact Or.inl rfl
    | some x => exact Or.inr rfl

/-- The states reachable through the embedded handlers, starting from any
store with an empty `authorized_targets` table. -/
inductive Reachable : GatewayState → Prop where
  | init (st : GatewayState) (h : st.authorizations = []) : Reachable st
  | submit (hashHex : String → String) (now : Int) (newID orgID : String)
      (req : SubmitAuthorizationRequest) (st : GatewayState) :
      Reachable st →
      Reachable (SubmitAuthorization hashHex now newID orgID req st).1
  | verify (now : Int) (authID userID action reason : String)
      (st : GatewayState) :
      Reachable st →
      Reachable (VerifyAuthorization now authID userID action reason st).1
  | activate (now : Int) (userID reason : String) (d : Int)
      (st : GatewayState) :
      Reachable st →
      Reachable (ActivateEmergencyStop now userID reason d st).1
  | deactivate (userID : String) (st : GatewayState) :
      Reachable st → Reachable (DeactivateEmergencyStop userID st).1
  | admissionCheck (c : AdmissionCheck) (st : GatewayState) :
      Reachable st → Reachable (runAdmissionCheck c st)

/-- C9 (amended): in every reachable store, every authorization record is
well-formed in the weaker sense the code actually maintains: the verifier
id and verified-at are null on pending records and always set together by a
decision; a rejected record carries a rejection reason. The stronger parts
of the original claim — set exactly once, immutable afterwards, and reason
non-null *only if* rejected — are false (see the counterexample): a second
Decide overwrites both fields and an approval never clears an earlier
reason. -/
theorem C9_verifier_fields (st : GatewayState) (h : Reachable st) :
    ∀ a ∈ st.authorizations, recordWellFormed a := by
  induction h with
  | init st0 h0 =>
      intro a ha
      rw [h0] at ha
      exact absurd ha (List.not_mem_nil a)
  | submit hashHex now newID orgID req st0 hst ih =>
      intro a ha
      rcases SubmitAuthorization_authorizations hashHex now newID orgID req st0
        with heq | ⟨newRecord, hp, hv1, hv2, hv3, heq⟩
      · rw [heq] at ha
        exact ih a ha
      · rw [heq] at ha
        rcases List.mem_append.mp ha with h1 | h1
        · exact ih a h1
        · have ha2 : a = newRecord := List.mem_singleton.mp h1
          subst ha2
          exact ⟨fun _ => ⟨hv1, hv2, hv3⟩, by rw [hv1, hv2]; exact Iff.rfl,
            fun hr => absurd (hp.symm.trans hr) (by decide)⟩
  | verify now authID userID action reason st0 hst ih =>
      intro a ha
      rcases VerifyAuthorization_authorizations now authID userID action
        reason st0 with heq | heq
      · rw [heq] at ha
        exact ih a ha
      · rw [heq] at ha
        rcases List.mem_map.mp ha with ⟨x, hx, hfx⟩
        rw [← hfx]
        by_cases hid : (x.id == authID) = true
        · rw [if_pos hid]
          exact decideRecord_wellFormed action userID reason now x
        · rw [if_neg hid]
          exact ih x hx
  | activate now userID reason d st0 hst ih =>
      intro a ha
      exact ih a ha
  | deactivate userID st0 hst ih =>
      intro a ha
      exact ih a ha
  | admissionCheck c st0 hst ih =>
      intro a ha
      rw [runAdmissionCheck_state] at ha
      exact ih a ha

/-- C9 witness: the invariant at the concrete record produced by submitting
an authorization into the empty store and approving it. -/
theorem C9_verifier_fields_witness :
    recordWellFormed
      { id := "id-1", organizationID := "org-1", targetType := "domain",
        targetValue := "api.example.com",
        authorizationDocumentURL := "https://example.com/pts.pdf",
        authorizationHash := "https://example.com/pts.pdf",
        authorizedBy := "Jane Signer", validFrom := 0, validUntil := 100,
        verificationStatus := "approved",
        verifiedByUserID := some "verifier-1", verifiedAt := some 10,
        rejectionReason := none, createdAt := 0 } :=
  C9_verifier_fields _
    (Reachable.verify 10 "id-1" "verifier-1" "approve" "" _
      (Reachable.submit (fun s => s) 0 "id-1" "org-1" validRequest emptyState
        (Reachable.init emptyState rfl)))
    _ (by decide)

/-! ## C10 — tenant isolation -/

/-- Belonging to the given tenant — the `organization_id = $1` conjunct
common to the List and pre-flight SELECTs. -/
def sameOrg (orgID : String) (a : Authorization) : Bool :=
  a.organizationID == orgID

/-- A `find?` whose predicate implies a filter's predicate is unaffected by
that filter. -/
theorem find?_filter_of_imp {α : Type} (p q : α → Bool)
    (himp : ∀ a, p a = true → q a = true) (l : List α) :
    (l.filter q).find? p = l.find? p := by
  induction l with
  | nil => rfl
  | cons a t ih =>
      by_cases hq : q a = true
      · rw [List.filter_cons_of_pos hq, List.find?_cons, List.find?_cons]
        cases hp : p a
        · exact ih
        · rfl
      · have hp : ¬ p a = true := fun hpa => hq (himp a hpa)
        rw [List.filter_cons_of_neg hq,
            @List.find?_cons_of_neg _ p a t hp]
        exact ih

/-- The pre-flight SELECT only sees the caller's tenant: two tables that
agree on the rows of `orgID` answer it identically. -/
theorem targetAuthQuery_eq_of_sameOrg (orgID targetType targetValue : String)
    (now : Int) (db1 db2 : List Authorization)
    (h : db1.filter (sameOrg orgID) = db2.filter (sameOrg orgID)) :
    targetAuthQuery db1 orgID targetType targetValue now =
      targetAuthQuery db2 orgID targetType targetValue now := by
  have himp : ∀ a, authzMatches orgID targetType targetValue now a = true →
      sameOrg orgID a = true := by
    intro a ha
    have hprops := (authzMatches_iff orgID targetType targetValue now a).mp ha
    unfold sameOrg
    simp [hprops.1]
  unfold targetAuthQuery
  rw [← find?_filter_of_imp _ _ himp db1, ← find?_filter_of_imp _ _ himp db2,
      h]

/-- C10: tenant isolation. List returns only records of the calling tenant,
and the pre-flight check is a two-run noninterference: its answer for a
tenant is unchanged by any modification of other tenants' records (any two
tables agreeing on the tenant's rows give the same response). -/
theorem C10_tenant_isolation (orgID statusFilter : String)
    (db1 db2 : List Authorization) (now : Int)
    (targetType targetValue : String) (st1 st2 : GatewayState)
    (h : db1.filter (sameOrg orgID) = db2.filter (sameOrg orgID))
    (h1 : st1.authorizations = db1) (h2 : st2.authorizations = db2) :
    (∀ a ∈ ListAuthorizations db1 orgID statusFilter,
       a.organizationID = orgID) ∧
    (CheckTargetAuthorization now orgID targetType targetValue st1).2 =
      (CheckTargetAuthorization now orgID targetType targetValue st2).2 := by
  constructor
  · intro a ha
    have ha2 : a ∈ db1.filter (fun a => a.organizationID == orgID &&
        (statusFilter == "" || a.verificationStatus == statusFilter)) := by
      unfold ListAuthorizations at ha
      exact List.mem_mergeSort.mp ha
    have hcond := List.of_mem_filter ha2
    simp only [Bool.and_eq_true, beq_iff_eq] at hcond
    exact hcond.1
  · unfold CheckTargetAuthorization
    by_cases hco : (orgID == "") = true
    · rw [if_pos hco, if_pos hco]
    · rw [if_neg hco, if_neg hco]
      by_cases hcb : (targetType == "" || targetValue == "") = true
      · rw [if_pos hcb, if_pos hcb]
      · rw [if_neg hcb, if_neg hcb, h1, h2,
            targetAuthQuery_eq_of_sameOrg orgID targetType targetValue now
              db1 db2 h]
        cases targetAuthQuery db2 orgID targetType targetValue now <;> rfl

/-- C10 witness: adding another tenant's approved record does not change
the pre-flight answer for `org-1`. -/
theorem C10_tenant_isolation_witness :
    (CheckTargetAuthorization 50 "org-1" "domain" "api.example.com"
        { emptyState with
            authorizations := [approvedRecord, otherOrgRecord] }).2 =
      (CheckTargetAuthorization 50 "org-1" "domain" "api.example.com"
        approvedState).2 :=
  (C10_tenant_isolation "org-1" "" [approvedRecord, otherOrgRecord]
    [approvedRecord] 50 "domain" "api.example.com"
    { emptyState with authorizations := [approvedRecord, otherOrgRecord] }
    approvedState (by decide) rfl rfl).2
